import Mathlib

/-!
# OneButton firmware (`Firmware/CPP/src/onebutton.cpp`)

A shallow embedding of class `OneButton`: its three member variables, the three
USB event handlers (`onReceive`, `onTransmitComplete`, `onStatusChange`) and the
body of the endless loop of `OneButton::run`, followed by theorems about them.

Machine integers are natural numbers; the two `uint32_t` members are reduced
modulo `2^32` where the source computes them.
-/

namespace OneButton

/-! ## Data model -/

/-- Modelled from the spec: `enum UsbStatusType`, the status values delivered to
`onStatusChange`, is declared in the USB library, which is not part of the sources at
hand. The four enumerators named by the `switch` in `onStatusChange` are kept by
name; `other code` stands for every further value the library may deliver. -/
inductive UsbStatusType where
  | STATE_DEFAULT
  | STATE_ADDRESSED
  | STATE_CONFIGURED
  | STATE_SUSPENDED
  | other (code : Nat)
  deriving DecidableEq, Repr

/-- Member variables of class `OneButton` (source lines 100-102). -/
structure State where
  _deviceConfigured : Bool
  _receivedReportTime : Nat
  _lastTransmitTime : Nat
  deriving DecidableEq, Repr

/-- Largest value of a `uint32_t`. -/
def UINT32_MAX : Nat := 2 ^ 32 - 1

/-- Default values that `run` gives to the member variables (lines 112-114). -/
def initialState : State :=
  { _deviceConfigured := false
    _receivedReportTime := UINT32_MAX - 1000
    _lastTransmitTime := 0 }

/-! ## Event handlers -/

/-- C library `memcmp` on two byte sequences: `some 0` when the first `n` bytes agree,
`some d` with the difference of the first differing pair otherwise, and `none` when
either sequence is shorter than the bytes that have to be read. -/
def memcmp : List Nat → List Nat → Nat → Option Int
  | _, _, 0 => some 0
  | x :: xs, y :: ys, n + 1 => if x = y then memcmp xs ys n else some ((x : Int) - (y : Int))
  | _, _, _ + 1 => none

/-- The string literal `"\x02\x01"` as stored: two bytes and the terminating zero. -/
def ackPattern : List Nat := [0x02, 0x01, 0x00]

/-- Handler `onReceive` (lines 190-197). `data` is the memory `data` points to, seen
byte by byte as `memcmp` sees it; `now` is the value `MillisecondTimer::millis()`
returns at the call. -/
def onReceive (s : State) (endpointIndex : Nat) (data : List Nat) (size : Nat)
    (now : Nat) : State :=
  if endpointIndex == 1 && size == 2 && memcmp data ackPattern size == some 0 then
    { s with _receivedReportTime := now }
  else
    s

/-- Handler `onTransmitComplete` (lines 204-206): the body is empty. -/
def onTransmitComplete (s : State) (_endpointIndex : Nat) (_size : Nat) : State :=
  s

/-- Handler `onStatusChange` (lines 213-231). `now` is the value
`MillisecondTimer::millis()` returns at the call; the sum is a `uint32_t`. -/
def onStatusChange (s : State) (newStatus : UsbStatusType) (now : Nat) : State :=
  match newStatus with
  | .STATE_CONFIGURED =>
      { s with _deviceConfigured := true
               _lastTransmitTime := (now + 5000) % 2 ^ 32 }
  | .STATE_DEFAULT | .STATE_ADDRESSED | .STATE_SUSPENDED =>
      { s with _deviceConfigured := false }
  | .other _ => s

/-- One notification from the USB layer, as routed to the subscribed handler
(lines 140-142). Handlers that read the clock carry the time of the call. -/
inductive Irq where
  | receive (endpointIndex : Nat) (data : List Nat) (size : Nat) (now : Nat)
  | transmitComplete (endpointIndex : Nat) (size : Nat)
  | statusChange (newStatus : UsbStatusType) (now : Nat)
  deriving DecidableEq, Repr

/-- Run the handler subscribed for a notification. -/
def dispatch (s : State) : Irq → State
  | .receive endpointIndex data size now => onReceive s endpointIndex data size now
  | .transmitComplete endpointIndex size => onTransmitComplete s endpointIndex size
  | .statusChange newStatus now => onStatusChange s newStatus now

/-! ## Main loop -/

/-- What an observer of the device sees, in order: a report handed to
`usb.sendReport`, a call of `MillisecondTimer::delay`, a notification handled. -/
inductive Ev where
  | sendReport (report : List Nat) (size : Nat)
  | delay (ms : Nat)
  | notified (i : Irq)
  deriving DecidableEq, Repr

/-- Array `usb_key_report` (line 161). -/
def usb_key_report : List Nat := [2, 0, 5, 0, 0, 0, 0, 0]

/-- Array `usb_key_report_2` (line 167). -/
def usb_key_report_2 : List Nat := [0, 0, 0, 0, 0, 0, 0, 0]

/-- Handle, one after the other, the notifications that arrive at a point of the
main loop where it can be interrupted. -/
def deliver (s : State) : List Irq → State × List Ev
  | [] => (s, [])
  | i :: rest =>
      let r := deliver (dispatch s i) rest
      (r.1, Ev.notified i :: r.2)

/-- Call `MillisecondTimer::delay(ms)`: the loop busy-waits while the notifications
`during` are handled. -/
def delay (s : State) (ms : Nat) (during : List Irq) : State × List Ev :=
  let r := deliver s during
  (r.1, Ev.delay ms :: r.2)

/-- Result of one pass through the loop body. -/
structure Iteration where
  state : State
  trace : List Ev
  _debounce : Nat
  deriving DecidableEq, Repr

/-- One pass through the body of `for(;;)` in `run` (lines 156-181).

`read1` and `read2` are the values of the two calls of `keyin.read()`; `d1`, `d2`,
`d3` are the notifications handled during the three delays of the pressed branch.
The local `_debounce` is declared, and set to 0, inside the body. -/
def loopBody (s : State) (read1 read2 : Nat) (d1 d2 d3 : List Irq) : Iteration :=
  let _debounce : Nat := 0
  let pressed : Iteration :=
    if read1 == 0 && _debounce == 0 then
      let t1 := [Ev.sendReport usb_key_report usb_key_report.length]
      let w1 := delay s 10 d1
      let t2 := [Ev.sendReport usb_key_report_2 usb_key_report_2.length]
      let w2 := delay w1.1 10 d2
      let _debounce := 1
      let w3 := delay w2.1 200 d3
      { state := w3.1, trace := t1 ++ w1.2 ++ t2 ++ w2.2 ++ w3.2, _debounce := _debounce }
    else
      { state := s, trace := [], _debounce := _debounce }
  let _debounce := if read2 == 1 then 0 else pressed._debounce
  { pressed with _debounce := _debounce }

/-- One scheduling step of the running device: a notification handled between two
passes through the loop body, or one pass through the loop body. -/
inductive Step where
  | irq (i : Irq)
  | iter (read1 read2 : Nat) (d1 d2 d3 : List Irq)
  deriving DecidableEq, Repr

/-- Execute one step from state `s`. -/
def Step.exec (s : State) : Step → State × List Ev
  | .irq i => (dispatch s i, [Ev.notified i])
  | .iter read1 read2 d1 d2 d3 =>
      let it := loopBody s read1 read2 d1 d2 d3
      (it.state, it.trace)

/-- Execute a sequence of steps from state `s`; every pass through the loop body
starts afresh, whatever value `_debounce` had at the end of the previous pass. -/
def runFrom (s : State) : List Step → State × List Ev
  | [] => (s, [])
  | st :: rest =>
      let a := st.exec s
      let b := runFrom a.1 rest
      (b.1, a.2 ++ b.2)

/-- Function `run`: the member variables get their defaults, then the loop runs. -/
def run (steps : List Step) : State × List Ev :=
  runFrom initialState steps

/-- Reports handed to the USB layer, in order, each with its length argument. -/
def reports : List Ev → List (List Nat × Nat)
  | [] => []
  | Ev.sendReport report size :: rest => (report, size) :: reports rest
  | _ :: rest => reports rest

/-! ## Properties read off traces -/

/-- Whether a notification is a transmit-complete notification. -/
def Irq.isTransmitComplete : Irq → Bool
  | .transmitComplete _ _ => true
  | _ => false

/-- Whether a report is unacknowledged after the trace, given whether one was
unacknowledged before it: a report handed over sets the flag, a transmit-complete
notification clears it. -/
def pendingAfter : Bool → List Ev → Bool
  | p, [] => p
  | _, Ev.sendReport _ _ :: rest => pendingAfter true rest
  | p, Ev.notified i :: rest => pendingAfter (if i.isTransmitComplete then false else p) rest
  | p, Ev.delay _ :: rest => pendingAfter p rest

/-- Whether no report of the trace is handed to the USB layer while an earlier
report is unacknowledged; the flag says whether one is unacknowledged at the start. -/
def overlapFree : Bool → List Ev → Bool
  | _, [] => true
  | p, Ev.sendReport _ _ :: rest => !p && overlapFree true rest
  | p, Ev.notified i :: rest => overlapFree (if i.isTransmitComplete then false else p) rest
  | p, Ev.delay _ :: rest => overlapFree p rest

/-- Whether every report sent by the step is followed, before the loop goes on to
the next report, by a transmit-complete notification: one during the first
`delay(10)`, one during the second `delay(10)` or the `delay(200)`. -/
def Step.acked : Step → Bool
  | .irq _ => true
  | .iter read1 _ d1 d2 d3 =>
      read1 != 0 ||
        (d1.any Irq.isTransmitComplete && (d2 ++ d3).any Irq.isTransmitComplete)

/-- Whether `onStatusChange` has a case for the status. -/
def UsbStatusType.recognised : UsbStatusType → Bool
  | .other _ => false
  | _ => true

/-- The most recent recognised status notified in the trace, `acc` when there is
none. -/
def lastRecognisedFrom : Option UsbStatusType → List Ev → Option UsbStatusType
  | acc, [] => acc
  | acc, Ev.notified (Irq.statusChange st _) :: rest =>
      lastRecognisedFrom (if st.recognised then some st else acc) rest
  | acc, _ :: rest => lastRecognisedFrom acc rest

/-- The most recent recognised status notified in the trace, if any. -/
def lastRecognised (tr : List Ev) : Option UsbStatusType :=
  lastRecognisedFrom none tr

/-! ## Auxiliary lemmas -/

theorem reports_append (a b : List Ev) : reports (a ++ b) = reports a ++ reports b := by
  induction a with
  | nil => rfl
  | cons e rest ih => cases e <;> simp [reports, ih]

theorem reports_deliver (s : State) (l : List Irq) : reports (deliver s l).2 = [] := by
  induction l generalizing s with
  | nil => rfl
  | cons i rest ih => simp [deliver, reports, ih]

theorem delay_fst (s : State) (ms : Nat) (l : List Irq) :
    (delay s ms l).1 = (deliver s l).1 := rfl

theorem delay_snd (s : State) (ms : Nat) (l : List Irq) :
    (delay s ms l).2 = Ev.delay ms :: (deliver s l).2 := rfl

theorem loopBody_trace_pressed (s : State) (read2 : Nat) (d1 d2 d3 : List Irq) :
    (loopBody s 0 read2 d1 d2 d3).trace
      = Ev.sendReport usb_key_report 8 :: Ev.delay 10 :: ((deliver s d1).2
        ++ Ev.sendReport usb_key_report_2 8 :: Ev.delay 10 :: ((deliver (deliver s d1).1 d2).2
        ++ Ev.delay 200 :: (deliver (deliver (deliver s d1).1 d2).1 d3).2)) := by
  simp [loopBody, usb_key_report, usb_key_report_2, delay_fst, delay_snd]

theorem loopBody_state_pressed (s : State) (read2 : Nat) (d1 d2 d3 : List Irq) :
    (loopBody s 0 read2 d1 d2 d3).state
      = (deliver (deliver (deliver s d1).1 d2).1 d3).1 := by
  simp [loopBody, delay_fst]

theorem loopBody_trace_idle (s : State) (read1 read2 : Nat) (d1 d2 d3 : List Irq)
    (h : read1 ≠ 0) : (loopBody s read1 read2 d1 d2 d3).trace = [] := by
  simp [loopBody, h]

theorem loopBody_state_idle (s : State) (read1 read2 : Nat) (d1 d2 d3 : List Irq)
    (h : read1 ≠ 0) : (loopBody s read1 read2 d1 d2 d3).state = s := by
  simp [loopBody, h]

theorem loopBody_reports (s : State) (read1 read2 : Nat) (d1 d2 d3 : List Irq) :
    reports (loopBody s read1 read2 d1 d2 d3).trace
      = if read1 = 0 then [(usb_key_report, 8), (usb_key_report_2, 8)] else [] := by
  by_cases h : read1 = 0
  · subst h
    rw [loopBody_trace_pressed]
    simp [reports_append, reports_deliver, reports]
  · rw [loopBody_trace_idle s read1 read2 d1 d2 d3 h]
    simp [h, reports]

theorem overlapFree_append (p : Bool) (a b : List Ev) :
    overlapFree p (a ++ b) = (overlapFree p a && overlapFree (pendingAfter p a) b) := by
  induction a generalizing p with
  | nil => simp [overlapFree, pendingAfter]
  | cons e rest ih => cases e <;> simp [overlapFree, pendingAfter, ih, Bool.and_assoc]

theorem pendingAfter_append (p : Bool) (a b : List Ev) :
    pendingAfter p (a ++ b) = pendingAfter (pendingAfter p a) b := by
  induction a generalizing p with
  | nil => simp [pendingAfter]
  | cons e rest ih => cases e <;> simp [pendingAfter, ih]

theorem overlapFree_deliver (p : Bool) (s : State) (l : List Irq) :
    overlapFree p (deliver s l).2 = true := by
  induction l generalizing p s with
  | nil => rfl
  | cons i rest ih => simp [deliver, overlapFree, ih]

theorem pendingAfter_deliver (p : Bool) (s : State) (l : List Irq) :
    pendingAfter p (deliver s l).2
      = (p && !l.any Irq.isTransmitComplete) := by
  induction l generalizing p s with
  | nil => simp [deliver, pendingAfter]
  | cons i rest ih =>
      simp only [deliver, pendingAfter, ih, List.any_cons]
      cases i.isTransmitComplete <;> cases rest.any Irq.isTransmitComplete <;> simp

theorem step_acked (s : State) (st : Step) (h : st.acked = true) :
    overlapFree false (st.exec s).2 = true ∧ pendingAfter false (st.exec s).2 = false := by
  cases st with
  | irq i => cases hi : i.isTransmitComplete <;> simp [Step.exec, overlapFree, pendingAfter, hi]
  | iter read1 read2 d1 d2 d3 =>
      by_cases h0 : read1 = 0
      · subst h0
        simp only [Step.acked, bne_self_eq_false, Bool.false_or, Bool.and_eq_true,
          List.any_append, Bool.or_eq_true] at h
        obtain ⟨h1, h23⟩ := h
        simp only [Step.exec, loopBody_trace_pressed]
        simp only [overlapFree, pendingAfter, overlapFree_append, pendingAfter_append,
          pendingAfter_deliver, overlapFree_deliver, h1]
        rcases h23 with h2 | h3
        · simp [h2]
        · simp [h3]
      · simp [Step.exec, loopBody_trace_idle s read1 read2 d1 d2 d3 h0, overlapFree,
          pendingAfter]

theorem runFrom_acked (steps : List Step) (s : State)
    (h : ∀ st ∈ steps, st.acked = true) :
    overlapFree false (runFrom s steps).2 = true
      ∧ pendingAfter false (runFrom s steps).2 = false := by
  induction steps generalizing s with
  | nil => simp [runFrom, overlapFree, pendingAfter]
  | cons st rest ih =>
      have hst := step_acked s st (h st (List.mem_cons_self _ _))
      have hrest := ih (st.exec s).1 (fun x hx => h x (List.mem_cons_of_mem _ hx))
      simp only [runFrom, overlapFree_append, pendingAfter_append, hst.1, hst.2, hrest.1,
        hrest.2, Bool.and_self, and_self]

theorem lastRecognisedFrom_append (acc : Option UsbStatusType) (a b : List Ev) :
    lastRecognisedFrom acc (a ++ b) = lastRecognisedFrom (lastRecognisedFrom acc a) b := by
  induction a generalizing acc with
  | nil => simp [lastRecognisedFrom]
  | cons e rest ih =>
      cases e with
      | sendReport r n => simp [lastRecognisedFrom, ih]
      | delay ms => simp [lastRecognisedFrom, ih]
      | notified i => cases i <;> simp [lastRecognisedFrom, ih]

/-- The flag `_deviceConfigured` agrees with the most recent recognised status. -/
def Tracks (s : State) (acc : Option UsbStatusType) : Prop :=
  s._deviceConfigured = true ↔ acc = some UsbStatusType.STATE_CONFIGURED

theorem dispatch_tracks (s : State) (acc : Option UsbStatusType) (i : Irq)
    (h : Tracks s acc) :
    Tracks (dispatch s i) (lastRecognisedFrom acc [Ev.notified i]) := by
  cases i with
  | receive e d n t =>
      unfold Tracks at *
      simp only [dispatch, onReceive, lastRecognisedFrom]
      split <;> simpa using h
  | transmitComplete e n => simpa [dispatch, onTransmitComplete, lastRecognisedFrom] using h
  | statusChange st t =>
      unfold Tracks at *
      cases st <;>
        simp [dispatch, onStatusChange, lastRecognisedFrom, UsbStatusType.recognised, h]

theorem deliver_tracks (l : List Irq) (s : State) (acc : Option UsbStatusType)
    (h : Tracks s acc) :
    Tracks (deliver s l).1 (lastRecognisedFrom acc (deliver s l).2) := by
  induction l generalizing s acc with
  | nil => simpa [deliver, lastRecognisedFrom] using h
  | cons i rest ih =>
      have h1 := dispatch_tracks s acc i h
      have h2 := ih (dispatch s i) _ h1
      have e : Ev.notified i :: (deliver (dispatch s i) rest).2
          = [Ev.notified i] ++ (deliver (dispatch s i) rest).2 := rfl
      simp only [deliver]
      rw [e, lastRecognisedFrom_append]
      exact h2

theorem step_tracks (st : Step) (s : State) (acc : Option UsbStatusType)
    (h : Tracks s acc) :
    Tracks (st.exec s).1 (lastRecognisedFrom acc (st.exec s).2) := by
  cases st with
  | irq i => exact dispatch_tracks s acc i h
  | iter read1 read2 d1 d2 d3 =>
      by_cases h0 : read1 = 0
      · subst h0
        simp only [Step.exec, loopBody_trace_pressed, loopBody_state_pressed]
        have h1 := deliver_tracks d1 s acc h
        have h2 := deliver_tracks d2 _ _ h1
        have h3 := deliver_tracks d3 _ _ h2
        simpa only [lastRecognisedFrom, lastRecognisedFrom_append] using h3
      · simpa [Step.exec, loopBody_trace_idle s read1 read2 d1 d2 d3 h0,
          loopBody_state_idle s read1 read2 d1 d2 d3 h0, lastRecognisedFrom] using h

theorem runFrom_tracks (steps : List Step) (s : State) (acc : Option UsbStatusType)
    (h : Tracks s acc) :
    Tracks (runFrom s steps).1 (lastRecognisedFrom acc (runFrom s steps).2) := by
  induction steps generalizing s acc with
  | nil => simpa [runFrom, lastRecognisedFrom] using h
  | cons st rest ih =>
      have h1 := step_tracks st s acc h
      have h2 := ih (st.exec s).1 _ h1
      simp only [runFrom]
      rw [lastRecognisedFrom_append]
      exact h2

theorem memcmp_ackPattern (data : List Nat) :
    memcmp data ackPattern 2 = some 0 ↔ data.take 2 = [0x02, 0x01] := by
  match data with
  | [] => simp [memcmp, ackPattern]
  | [a] =>
      by_cases ha : a = 2
      · simp [memcmp, ackPattern, ha]
      · have : (a : Int) - 2 ≠ 0 := by omega
        simp [memcmp, ackPattern, ha, this]
  | a :: b :: rest =>
      simp only [memcmp, ackPattern, List.take_succ_cons, List.take_zero]
      by_cases ha : a = 2
      · by_cases hb : b = 1
        · simp [ha, hb]
        · have : (b : Int) - 1 ≠ 0 := by omega
          simp [ha, hb, this]
      · have : (a : Int) - 2 ≠ 0 := by omega
        simp [ha, this]

/-! ## Main loop: what is sent, and when -/

/-- C1 (code defect). The button is held down over two successive passes through the
loop body: all four reads of the line return 0, none returns 1. The first pass ends
with `_debounce` equal to 1, yet the second pass declares `_debounce` anew as 0 and
sends the key-down and key-up reports a second time. -/
theorem held_button_reported_twice :
    (loopBody initialState 0 0 [] [] [])._debounce = 1 ∧
    reports (run [Step.iter 0 0 [] [] [], Step.iter 0 0 [] [] []]).2
      = [(usb_key_report, 8), (usb_key_report_2, 8),
         (usb_key_report, 8), (usb_key_report_2, 8)] := by
  decide

/-- C2 (code defect). In the state `run` starts from, and in the state reached after
a configured and then a suspended notification, `_deviceConfigured` is false, and a
pass through the loop body that reads the line as 0 still hands the key-down and
key-up reports to the USB layer. -/
theorem press_sent_while_not_configured :
    initialState._deviceConfigured = false ∧
    reports (run [Step.iter 0 1 [] [] []]).2
      = [(usb_key_report, 8), (usb_key_report_2, 8)] ∧
    (run [Step.irq (Irq.statusChange UsbStatusType.STATE_CONFIGURED 0),
          Step.irq (Irq.statusChange UsbStatusType.STATE_SUSPENDED 7000)]).1._deviceConfigured
      = false ∧
    reports (run [Step.irq (Irq.statusChange UsbStatusType.STATE_CONFIGURED 0),
                  Step.irq (Irq.statusChange UsbStatusType.STATE_SUSPENDED 7000),
                  Step.iter 0 1 [] [] []]).2
      = [(usb_key_report, 8), (usb_key_report_2, 8)] := by
  decide

/-- C3 (code defect). The device is configured at time 0, so `_lastTransmitTime`
holds the deadline 5000. The loop body reads neither the clock nor
`_lastTransmitTime`: the next pass that reads the line as 0 hands over the key-down
and key-up reports at whatever time it runs, a time before 5000 such as 3000
included. -/
theorem press_sent_before_grace_deadline :
    (run [Step.irq (Irq.statusChange UsbStatusType.STATE_CONFIGURED 0)]).1
      = { _deviceConfigured := true
          _receivedReportTime := UINT32_MAX - 1000
          _lastTransmitTime := 5000 } ∧
    reports (run [Step.irq (Irq.statusChange UsbStatusType.STATE_CONFIGURED 0),
                  Step.iter 0 1 [] [] []]).2
      = [(usb_key_report, 8), (usb_key_report_2, 8)] := by
  decide

/-- C4, as stated, fails. One pass through the loop body reads the line as 0 and no
transmit-complete notification arrives during its delays: the key-up report is
handed over, after the fixed 10 ms delay, while the key-down report is still
unacknowledged. -/
theorem key_up_sent_while_key_down_unacknowledged :
    (run [Step.iter 0 1 [] [] []]).2
      = [Ev.sendReport usb_key_report 8, Ev.delay 10,
         Ev.sendReport usb_key_report_2 8, Ev.delay 10, Ev.delay 200] ∧
    overlapFree false (run [Step.iter 0 1 [] [] []]).2 = false := by
  decide

/-- C4, amended. In every interleaving in which a transmit-complete notification
arrives during the delay that follows each report (during the first `delay(10)` for
key-down, during the second `delay(10)` or the `delay(200)` for key-up), no report
is handed to the USB layer while an earlier one is unacknowledged; and
`onTransmitComplete` leaves the state it is called in unchanged. -/
theorem acknowledged_reports_never_overlap (steps : List Step)
    (h : ∀ st ∈ steps, st.acked = true) :
    overlapFree false (run steps).2 = true ∧
    ∀ endpointIndex size : Nat,
      onTransmitComplete (run steps).1 endpointIndex size = (run steps).1 := by
  exact ⟨(runFrom_acked steps initialState h).1, fun _ _ => rfl⟩

/-- Witness for `acknowledged_reports_never_overlap`: two presses, each report
acknowledged during the delay that follows it. -/
theorem acknowledged_reports_never_overlap_witness :
    (∀ st ∈ [Step.iter 0 0 [Irq.transmitComplete 1 8] [Irq.transmitComplete 1 8] [],
             Step.iter 0 1 [Irq.transmitComplete 1 8] [] [Irq.transmitComplete 1 8]],
        st.acked = true) ∧
    (overlapFree false
        (run [Step.iter 0 0 [Irq.transmitComplete 1 8] [Irq.transmitComplete 1 8] [],
              Step.iter 0 1 [Irq.transmitComplete 1 8] [] [Irq.transmitComplete 1 8]]).2
        = true ∧
      ∀ endpointIndex size : Nat,
        onTransmitComplete
          (run [Step.iter 0 0 [Irq.transmitComplete 1 8] [Irq.transmitComplete 1 8] [],
                Step.iter 0 1 [Irq.transmitComplete 1 8] [] [Irq.transmitComplete 1 8]]).1
          endpointIndex size
        = (run [Step.iter 0 0 [Irq.transmitComplete 1 8] [Irq.transmitComplete 1 8] [],
                Step.iter 0 1 [Irq.transmitComplete 1 8] [] [Irq.transmitComplete 1 8]]).1) :=
  ⟨by decide, acknowledged_reports_never_overlap _ (by decide)⟩

/-- C5. A pass through the loop body that takes the pressed branch (the first read
of the line returns 0; `_debounce` is 0 at that point) hands exactly two reports to
the USB layer, key-down `{2,0,5,0,0,0,0,0}` then key-up `{0,0,0,0,0,0,0,0}`, each
with length argument 8 and holding 8 bytes; any other pass hands over none. -/
theorem iteration_sends_key_down_then_key_up (s : State) (read1 read2 : Nat)
    (d1 d2 d3 : List Irq) :
    reports (loopBody s read1 read2 d1 d2 d3).trace
      = (if read1 = 0 then
          [([2, 0, 5, 0, 0, 0, 0, 0], 8), ([0, 0, 0, 0, 0, 0, 0, 0], 8)]
        else []) ∧
    ∀ r ∈ reports (loopBody s read1 read2 d1 d2 d3).trace, r.1.length = 8 ∧ r.2 = 8 := by
  rw [loopBody_reports]
  by_cases h : read1 = 0
  · simp [h, usb_key_report, usb_key_report_2]
  · simp [h]

/-- C10. The reports one pass through the loop body hands to the USB layer depend
on the values read from the input line in that pass only: they are the same for any
two states of the member variables, any two histories of steps before the pass, and
any notifications (with any clock values) handled during the pass. -/
theorem iteration_reports_depend_on_reads_only (sa sb : State) (read1 read2 : Nat)
    (d1 d2 d3 e1 e2 e3 : List Irq) (historyA historyB : List Step) :
    reports (loopBody sa read1 read2 d1 d2 d3).trace
      = reports (loopBody sb read1 read2 e1 e2 e3).trace ∧
    reports (loopBody (run historyA).1 read1 read2 d1 d2 d3).trace
      = reports (loopBody (run historyB).1 read1 read2 e1 e2 e3).trace := by
  simp only [loopBody_reports, and_self]

/-! ## Event handlers -/

/-- C6. From every state and at every time `now`, `onStatusChange(STATE_CONFIGURED)`
sets `_deviceConfigured` to true and `_lastTransmitTime` to `(now + 5000) mod 2^32`,
whatever deadline was stored before; a second configured notification at time
`later` stores `(later + 5000) mod 2^32`. -/
theorem configured_sets_grace_deadline (s : State) (now later : Nat) :
    (onStatusChange s UsbStatusType.STATE_CONFIGURED now)._deviceConfigured = true ∧
    (onStatusChange s UsbStatusType.STATE_CONFIGURED now)._lastTransmitTime
      = (now + 5000) % 2 ^ 32 ∧
    (onStatusChange (onStatusChange s UsbStatusType.STATE_CONFIGURED now)
        UsbStatusType.STATE_CONFIGURED later)._deviceConfigured = true ∧
    (onStatusChange (onStatusChange s UsbStatusType.STATE_CONFIGURED now)
        UsbStatusType.STATE_CONFIGURED later)._lastTransmitTime
      = (later + 5000) % 2 ^ 32 := by
  simp [onStatusChange]

/-- C7. From every state, `onStatusChange` with `STATE_DEFAULT`, `STATE_ADDRESSED` or
`STATE_SUSPENDED` leaves `_deviceConfigured` false; and after any sequence of steps
of `run`, `_deviceConfigured` is true exactly when the most recent recognised status
notification was `STATE_CONFIGURED`. -/
theorem configured_iff_last_status_configured (s : State) (now : Nat)
    (steps : List Step) :
    (onStatusChange s UsbStatusType.STATE_DEFAULT now)._deviceConfigured = false ∧
    (onStatusChange s UsbStatusType.STATE_ADDRESSED now)._deviceConfigured = false ∧
    (onStatusChange s UsbStatusType.STATE_SUSPENDED now)._deviceConfigured = false ∧
    ((run steps).1._deviceConfigured = true
      ↔ lastRecognised (run steps).2 = some UsbStatusType.STATE_CONFIGURED) := by
  refine ⟨rfl, rfl, rfl, ?_⟩
  have h0 : Tracks initialState none := by simp [Tracks, initialState]
  exact runFrom_tracks steps initialState none h0

/-- C8. `onReceive` stores the current time in `_receivedReportTime` when the
endpoint index is 1, the size is 2 and the first two bytes of the payload are 0x02,
0x01; in every other case it returns the state unchanged. It never changes
`_deviceConfigured` or `_lastTransmitTime`. -/
theorem onReceive_records_acknowledgement_only (s : State) (endpointIndex : Nat)
    (data : List Nat) (size now : Nat) :
    onReceive s endpointIndex data size now
      = (if endpointIndex = 1 ∧ size = 2 ∧ data.take 2 = [0x02, 0x01] then
          { s with _receivedReportTime := now }
        else s) ∧
    (onReceive s endpointIndex data size now)._deviceConfigured = s._deviceConfigured ∧
    (onReceive s endpointIndex data size now)._lastTransmitTime = s._lastTransmitTime := by
  have key : (endpointIndex == 1 && size == 2 && memcmp data ackPattern size == some 0) = true
      ↔ (endpointIndex = 1 ∧ size = 2 ∧ data.take 2 = [0x02, 0x01]) := by
    constructor
    · intro h
      simp only [Bool.and_eq_true, beq_iff_eq] at h
      obtain ⟨⟨h1, h2⟩, h3⟩ := h
      subst h2
      exact ⟨h1, rfl, (memcmp_ackPattern data).1 h3⟩
    · rintro ⟨h1, h2, h3⟩
      subst h2
      simp [h1, (memcmp_ackPattern data).2 h3]
  unfold onReceive
  by_cases c : endpointIndex = 1 ∧ size = 2 ∧ data.take 2 = [0x02, 0x01]
  · rw [if_pos (key.2 c), if_pos c]
    exact ⟨rfl, rfl, rfl⟩
  · rw [if_neg (fun h => c (key.1 h)), if_neg c]
    exact ⟨rfl, rfl, rfl⟩

/-- C9. For every state and every status other than `STATE_CONFIGURED`,
`STATE_DEFAULT`, `STATE_ADDRESSED` and `STATE_SUSPENDED`, `onStatusChange` returns the
state unchanged: `_deviceConfigured`, `_lastTransmitTime` and `_receivedReportTime`
keep their values. -/
theorem unrecognised_status_ignored (s : State) (newStatus : UsbStatusType) (now : Nat)
    (hc : newStatus ≠ UsbStatusType.STATE_CONFIGURED)
    (hd : newStatus ≠ UsbStatusType.STATE_DEFAULT)
    (ha : newStatus ≠ UsbStatusType.STATE_ADDRESSED)
    (hs : newStatus ≠ UsbStatusType.STATE_SUSPENDED) :
    onStatusChange s newStatus now = s := by
  cases newStatus with
  | STATE_DEFAULT => exact absurd rfl hd
  | STATE_ADDRESSED => exact absurd rfl ha
  | STATE_CONFIGURED => exact absurd rfl hc
  | STATE_SUSPENDED => exact absurd rfl hs
  | other code => rfl

/-- Witness for `unrecognised_status_ignored`: a configured device, status code 9. -/
theorem unrecognised_status_ignored_witness :
    (UsbStatusType.other 9 ≠ UsbStatusType.STATE_CONFIGURED ∧
      UsbStatusType.other 9 ≠ UsbStatusType.STATE_DEFAULT ∧
      UsbStatusType.other 9 ≠ UsbStatusType.STATE_ADDRESSED ∧
      UsbStatusType.other 9 ≠ UsbStatusType.STATE_SUSPENDED) ∧
    onStatusChange
        { _deviceConfigured := true, _receivedReportTime := 42, _lastTransmitTime := 5000 }
        (UsbStatusType.other 9) 123
      = { _deviceConfigured := true, _receivedReportTime := 42, _lastTransmitTime := 5000 } :=
  ⟨by decide,
   unrecognised_status_ignored _ (UsbStatusType.other 9) 123
     (by decide) (by decide) (by decide) (by decide)⟩

end OneButton
